import Mathlib

/-!
Verification development for the validating Lightning signer core.

The Rust sources are shallowly embedded below.  External cryptographic
libraries (secp256k1, rust-bitcoin serialization, LDK transaction builders)
are modelled by uninterpreted function parameters collected in the `Crypto`
structure; machine integers are modelled by `Nat` (no arithmetic in the
embedded paths overflows `u64` for in-range commitment numbers); fallible
Rust code returns `Except Status`.
-/

/-- Public keys are opaque to the enforcement logic; modelled as `Nat`. -/
abbrev PubKey := Nat

/-- Scripts are opaque byte vectors to the enforcement logic; modelled as `Nat`. -/
abbrev Script := Nat

/-- Signatures are opaque; modelled as `Nat`. -/
abbrev Signature := Nat

/-- Sighash messages are opaque; modelled as `Nat`. -/
abbrev Msg := Nat

/-- Commitment indices are counted backwards from `INITIAL_COMMITMENT_NUMBER = 2^48 - 1`
(util::INITIAL_COMMITMENT_NUMBER in the source). -/
def INITIAL_COMMITMENT_NUMBER : Nat := 2 ^ 48 - 1

/-- Status values returned by fallible signer operations (util::status).
`policyFailure` corresponds to `policy_error(..)` / FAILED_PRECONDITION,
`internalError` to `Status::internal`, `invalidArgument` to `invalid_argument`. -/
inductive Status where
  | policyFailure : String → Status
  | internalError : String → Status
  | invalidArgument : String → Status
deriving DecidableEq, Repr

/-- HTLCInfo2 from tx::tx — semantic description of one HTLC. -/
structure HTLCInfo2 where
  value_sat : Nat
  cltv_expiry : Nat
  payment_hash : Nat
deriving DecidableEq, Repr

/-- HTLCOutputInCommitment from LDK chan_utils, as constructed by
`Channel::htlcs_info2_to_oic`. -/
structure HTLCOutputInCommitment where
  offered : Bool
  amount_msat : Nat
  cltv_expiry : Nat
  payment_hash : Nat
  transaction_output_index : Option Nat
deriving DecidableEq, Repr

/-- CommitmentInfo2 from tx::tx — the semantic view of a commitment transaction
as built by `build_counterparty_commitment_info` / `build_holder_commitment_info`. -/
structure CommitmentInfo2 where
  is_counterparty_broadcaster : Bool
  to_countersigner_pubkey : PubKey
  to_countersigner_value_sat : Nat
  revocation_pubkey : PubKey
  to_broadcaster_delayed_pubkey : PubKey
  to_broadcaster_value_sat : Nat
  to_self_delay : Nat
  offered_htlcs : List HTLCInfo2
  received_htlcs : List HTLCInfo2
deriving DecidableEq, Repr

/-- CommitmentInfo (phase 1, produced by `Validator::make_info`): only the two
value fields are read by channel.rs, so only those are modelled. -/
structure CommitmentInfo where
  to_broadcaster_value_sat : Nat
  to_countersigner_value_sat : Nat
deriving DecidableEq, Repr

/-- Modelled from the spec: `EnforcementState` (§3 of the spec) lives in
policy/validator.rs which is not under src/; channel.rs reads and writes the
fields listed here.  The authoritative per-channel progress record. -/
structure EnforcementState where
  next_holder_commit_num : Nat
  next_counterparty_commit_num : Nat
  next_counterparty_revoke_num : Nat
  current_counterparty_point : Option PubKey
  previous_counterparty_point : Option PubKey
  current_holder_commit_info : Option CommitmentInfo2
  previous_holder_commit_info : Option CommitmentInfo2
  current_counterparty_commit_info : Option CommitmentInfo2
  previous_counterparty_commit_info : Option CommitmentInfo2
  mutual_close_signed : Bool
deriving DecidableEq, Repr

/-- The five channel basepoints (LDK ChannelPublicKeys). -/
structure ChannelPublicKeys where
  funding_pubkey : PubKey
  revocation_basepoint : PubKey
  payment_point : PubKey
  delayed_payment_basepoint : PubKey
  htlc_basepoint : PubKey
deriving DecidableEq, Repr

/-- The commitment type, based on the negotiated option (channel.rs). -/
inductive CommitmentType where
  | Legacy
  | StaticRemoteKey
  | Anchors
deriving DecidableEq, Repr

/-- A transaction outpoint (bitcoin::OutPoint). -/
structure OutPoint where
  txid : Nat
  vout : Nat
deriving DecidableEq, Repr

/-- The negotiated parameters for the Channel (channel.rs `ChannelSetup`). -/
structure ChannelSetup where
  is_outbound : Bool
  channel_value_sat : Nat
  push_value_msat : Nat
  funding_outpoint : OutPoint
  holder_selected_contest_delay : Nat
  holder_shutdown_script : Option Script
  counterparty_points : ChannelPublicKeys
  counterparty_selected_contest_delay : Nat
  counterparty_shutdown_script : Script
  commitment_type : CommitmentType
deriving DecidableEq, Repr

def ChannelSetup.option_static_remotekey (s : ChannelSetup) : Bool :=
  s.commitment_type ≠ CommitmentType.Legacy

def ChannelSetup.option_anchor_outputs (s : ChannelSetup) : Bool :=
  s.commitment_type = CommitmentType.Anchors

/-- LDK InMemorySigner as used by channel.rs.  The per-commitment key schedule
(`get_per_commitment_point` / `release_commitment_secret`, indexed by the
backwards-counting commitment index) is external LDK code, modelled by
uninterpreted functions; the base secret keys are opaque scalars. -/
structure InMemorySigner where
  pubkeys : ChannelPublicKeys
  counterparty_pubkeys : ChannelPublicKeys
  per_commitment_point : Nat → PubKey
  commitment_secret : Nat → Nat
  funding_key : Nat
  revocation_base_key : Nat
  payment_key : Nat
  delayed_payment_base_key : Nat
  htlc_base_key : Nat

/-- A channel before `Node::ready_channel` (channel.rs `ChannelStub`). -/
structure ChannelStub where
  nonce : List Nat
  keys : InMemorySigner

/-- ChannelStub::get_per_commitment_point — only commitment number zero is
answered; anything else is a policy error (channel.rs lines 193-204). -/
def ChannelStub.get_per_commitment_point (c : ChannelStub) (commitment_number : Nat) :
    Except Status PubKey :=
  if commitment_number ≠ 0 then
    .error (.policyFailure "channel stub can only return point for commitment number zero")
  else
    .ok (c.keys.per_commitment_point (INITIAL_COMMITMENT_NUMBER - commitment_number))

/-- ChannelStub::get_per_commitment_secret — never released from a stub
(channel.rs lines 206-209). -/
def ChannelStub.get_per_commitment_secret (_c : ChannelStub) (_commitment_number : Nat) :
    Except Status Nat :=
  .error (.policyFailure "channel stub cannot release commitment secret")

/-- ChannelStub::check_future_secret (channel.rs lines 211-220). -/
def ChannelStub.check_future_secret (c : ChannelStub) (commitment_number : Nat)
    (suggested : Nat) : Except Status Bool :=
  .ok (decide (suggested = c.keys.commitment_secret
        (INITIAL_COMMITMENT_NUMBER - commitment_number)))

/-- ChannelStub::nonce (channel.rs lines 222-224). -/
def ChannelStub.get_nonce (c : ChannelStub) : List Nat :=
  c.nonce

/-- A channel after `Node::ready_channel` (channel.rs `Channel`).  The node
backpointer, secp context and channel ids are omitted: they do not affect the
enforcement behaviour embedded here. -/
structure Channel where
  nonce : List Nat
  keys : InMemorySigner
  enforcement_state : EnforcementState
  setup : ChannelSetup

/-- Channel::get_per_commitment_point — the Rust method takes `&self`, so it
cannot mutate the channel; it fails for indices above `next_holder_commit_num`
(channel.rs lines 284-298). -/
def Channel.get_per_commitment_point (c : Channel) (commitment_number : Nat) :
    Except Status PubKey :=
  let next_holder_commit_num := c.enforcement_state.next_holder_commit_num
  if commitment_number > next_holder_commit_num then
    .error (.policyFailure "get_per_commitment_point: commitment_number invalid")
  else
    .ok (c.keys.per_commitment_point (INITIAL_COMMITMENT_NUMBER - commitment_number))

/-- Channel::get_per_commitment_secret — takes `&self` (no mutation); gated by
policy-v2-revoke-new-commitment-signed: fails when
`commitment_number + 2 > next_holder_commit_num` (channel.rs lines 300-315). -/
def Channel.get_per_commitment_secret (c : Channel) (commitment_number : Nat) :
    Except Status Nat :=
  let next_holder_commit_num := c.enforcement_state.next_holder_commit_num
  if commitment_number + 2 > next_holder_commit_num then
    .error (.policyFailure "get_per_commitment_secret: commitment_number invalid")
  else
    .ok (c.keys.commitment_secret (INITIAL_COMMITMENT_NUMBER - commitment_number))

/-- Channel::check_future_secret (channel.rs lines 317-326). -/
def Channel.check_future_secret (c : Channel) (commitment_number : Nat)
    (suggested : Nat) : Except Status Bool :=
  .ok (decide (suggested = c.keys.commitment_secret
        (INITIAL_COMMITMENT_NUMBER - commitment_number)))

/-- A raw bitcoin transaction as handled by channel.rs.  The enforcement code
inspects only the output count (`tx.output.len()`) and compares whole
transactions bitwise; the remaining serialized content is modelled as an
opaque atom in `rest`. -/
structure BitcoinTx where
  output : List Nat
  rest : Nat
deriving DecidableEq, Repr

/-- Witness scripts supplied alongside a raw transaction (`Vec<Vec<u8>>`);
channel.rs only compares their count to the output count. -/
abbrev Witscript := Nat

/-- Sighash type selector used by channel.rs (`SigHashType`). -/
inductive SigHashT where
  | all
  | singlePlusAnyoneCanPay
deriving DecidableEq, Repr

/-- LDK TxCreationKeys as derived by `Channel::make_tx_keys`. -/
structure TxCreationKeys where
  per_commitment_point : PubKey
  revocation_key : PubKey
  broadcaster_htlc_key : PubKey
  countersignatory_htlc_key : PubKey
  broadcaster_delayed_payment_key : PubKey
deriving DecidableEq, Repr

/-- LDK CommitmentTransaction: the semantic inputs from which the library
deterministically builds the raw commitment transaction
(`new_with_auxiliary_htlc_data`).  `commitment_number` is backwards-counting. -/
structure CommitmentTransaction where
  commitment_number : Nat
  to_broadcaster_value_sat : Nat
  to_countersigner_value_sat : Nat
  keys : TxCreationKeys
  feerate_per_kw : Nat
  htlcs : List HTLCOutputInCommitment
  is_counterparty_broadcastable : Bool
deriving DecidableEq, Repr

/-- External cryptographic and transaction-building primitives used by
channel.rs (secp256k1, rust-bitcoin BIP143 sighash, LDK chan_utils).  These
are assumed-available library code, modelled as uninterpreted functions.
Key-derivation failures (non-canonical scalars) cannot occur for honestly
derived material, so the derivations are total here. -/
structure Crypto where
  derive_public_key : PubKey → PubKey → PubKey
  derive_revocation_pubkey : PubKey → PubKey → PubKey
  derive_private_key : Nat → Nat → Nat
  derive_private_revocation_key : Nat → Nat → Nat
  built_transaction : CommitmentTransaction → BitcoinTx
  txid : CommitmentTransaction → Nat
  sign_counterparty_commitment : CommitmentTransaction → Signature
  sign_holder_commitment : CommitmentTransaction → Signature
  sign_commitment : BitcoinTx → Nat → Signature
  make_funding_redeemscript : PubKey → PubKey → Script
  signature_hash : BitcoinTx → Nat → Script → Nat → SigHashT → Msg
  verify : Msg → Signature → PubKey → Bool
  sign : Msg → Nat → Signature
  get_htlc_redeemscript : HTLCOutputInCommitment → TxCreationKeys → Script
  build_htlc_transaction :
    Nat → Nat → Nat → HTLCOutputInCommitment → PubKey → PubKey → BitcoinTx

/-- Channel::make_tx_keys — TxCreationKeys::derive_new over the broadcaster
basepoints `a_points` and countersignatory basepoints `b_points`
(channel.rs lines 376-391, LDK derivation modelled by `Crypto`). -/
def Channel.make_tx_keys (crypto : Crypto) (per_commitment_point : PubKey)
    (a_points b_points : ChannelPublicKeys) : TxCreationKeys :=
  { per_commitment_point := per_commitment_point
    revocation_key :=
      crypto.derive_revocation_pubkey per_commitment_point b_points.revocation_basepoint
    broadcaster_htlc_key :=
      crypto.derive_public_key per_commitment_point a_points.htlc_basepoint
    countersignatory_htlc_key :=
      crypto.derive_public_key per_commitment_point b_points.htlc_basepoint
    broadcaster_delayed_payment_key :=
      crypto.derive_public_key per_commitment_point a_points.delayed_payment_basepoint }

/-- Channel::make_counterparty_tx_keys (channel.rs lines 354-363). -/
def Channel.make_counterparty_tx_keys (c : Channel) (crypto : Crypto)
    (per_commitment_point : PubKey) : TxCreationKeys :=
  Channel.make_tx_keys crypto per_commitment_point
    c.keys.counterparty_pubkeys c.keys.pubkeys

/-- Channel::make_holder_tx_keys (channel.rs lines 365-374). -/
def Channel.make_holder_tx_keys (c : Channel) (crypto : Crypto)
    (per_commitment_point : PubKey) : TxCreationKeys :=
  Channel.make_tx_keys crypto per_commitment_point
    c.keys.pubkeys c.keys.counterparty_pubkeys

/-- Channel::derive_counterparty_payment_pubkey (channel.rs lines 393-409). -/
def Channel.derive_counterparty_payment_pubkey (c : Channel) (crypto : Crypto)
    (remote_per_commitment_point : PubKey) : PubKey :=
  if c.setup.option_static_remotekey then
    c.keys.pubkeys.payment_point
  else
    crypto.derive_public_key remote_per_commitment_point c.keys.pubkeys.payment_point

/-- Channel::htlcs_info2_to_oic (channel.rs lines 668-692). -/
def Channel.htlcs_info2_to_oic (offered_htlcs received_htlcs : List HTLCInfo2) :
    List HTLCOutputInCommitment :=
  (offered_htlcs.map fun htlc =>
    { offered := true
      amount_msat := htlc.value_sat * 1000
      cltv_expiry := htlc.cltv_expiry
      payment_hash := htlc.payment_hash
      transaction_output_index := none }) ++
  (received_htlcs.map fun htlc =>
    { offered := false
      amount_msat := htlc.value_sat * 1000
      cltv_expiry := htlc.cltv_expiry
      payment_hash := htlc.payment_hash
      transaction_output_index := none })

/-- Channel::make_counterparty_commitment_tx_with_keys (channel.rs lines 514-536):
for a counterparty-broadcastable commitment the first LDK value argument is the
to-counterparty (broadcaster) value and the second the to-holder value. -/
def Channel.make_counterparty_commitment_tx_with_keys (keys : TxCreationKeys)
    (commitment_number feerate_per_kw to_holder_value_sat to_counterparty_value_sat : Nat)
    (htlcs : List HTLCOutputInCommitment) : CommitmentTransaction :=
  { commitment_number := INITIAL_COMMITMENT_NUMBER - commitment_number
    to_broadcaster_value_sat := to_counterparty_value_sat
    to_countersigner_value_sat := to_holder_value_sat
    keys := keys
    feerate_per_kw := feerate_per_kw
    htlcs := htlcs
    is_counterparty_broadcastable := true }

/-- Channel::make_counterparty_commitment_tx (channel.rs lines 538-558). -/
def Channel.make_counterparty_commitment_tx (c : Channel) (crypto : Crypto)
    (remote_per_commitment_point : PubKey)
    (commitment_number feerate_per_kw to_holder_value_sat to_counterparty_value_sat : Nat)
    (htlcs : List HTLCOutputInCommitment) : CommitmentTransaction :=
  Channel.make_counterparty_commitment_tx_with_keys
    (c.make_counterparty_tx_keys crypto remote_per_commitment_point)
    commitment_number feerate_per_kw to_holder_value_sat to_counterparty_value_sat htlcs

/-- Channel::make_holder_commitment_tx_with_keys (channel.rs lines 624-646). -/
def Channel.make_holder_commitment_tx_with_keys (keys : TxCreationKeys)
    (commitment_number feerate_per_kw to_holder_value_sat to_counterparty_value_sat : Nat)
    (htlcs : List HTLCOutputInCommitment) : CommitmentTransaction :=
  { commitment_number := INITIAL_COMMITMENT_NUMBER - commitment_number
    to_broadcaster_value_sat := to_holder_value_sat
    to_countersigner_value_sat := to_counterparty_value_sat
    keys := keys
    feerate_per_kw := feerate_per_kw
    htlcs := htlcs
    is_counterparty_broadcastable := false }

/-- Channel::make_holder_commitment_tx (channel.rs lines 648-666). -/
def Channel.make_holder_commitment_tx (c : Channel) (crypto : Crypto)
    (commitment_number feerate_per_kw to_holder_value_sat to_counterparty_value_sat : Nat)
    (htlcs : List HTLCOutputInCommitment) : Except Status CommitmentTransaction :=
  match c.get_per_commitment_point commitment_number with
  | .error e => .error e
  | .ok per_commitment_point =>
    .ok (Channel.make_holder_commitment_tx_with_keys
      (c.make_holder_tx_keys crypto per_commitment_point) commitment_number
      feerate_per_kw to_holder_value_sat to_counterparty_value_sat htlcs)

/-- Channel::build_counterparty_commitment_info (channel.rs lines 880-919). -/
def Channel.build_counterparty_commitment_info (c : Channel) (crypto : Crypto)
    (remote_per_commitment_point : PubKey)
    (to_holder_value_sat to_counterparty_value_sat : Nat)
    (offered_htlcs received_htlcs : List HTLCInfo2) : CommitmentInfo2 :=
  { is_counterparty_broadcaster := true
    to_countersigner_pubkey :=
      c.derive_counterparty_payment_pubkey crypto remote_per_commitment_point
    to_countersigner_value_sat := to_holder_value_sat
    revocation_pubkey :=
      crypto.derive_revocation_pubkey remote_per_commitment_point
        c.keys.pubkeys.revocation_basepoint
    to_broadcaster_delayed_pubkey :=
      crypto.derive_public_key remote_per_commitment_point
        c.setup.counterparty_points.delayed_payment_basepoint
    to_broadcaster_value_sat := to_counterparty_value_sat
    to_self_delay := c.setup.holder_selected_contest_delay
    offered_htlcs := offered_htlcs
    received_htlcs := received_htlcs }

/-- Channel::build_holder_commitment_info (channel.rs lines 923-978). -/
def Channel.build_holder_commitment_info (c : Channel) (crypto : Crypto)
    (per_commitment_point : PubKey)
    (to_holder_value_sat to_counterparty_value_sat : Nat)
    (offered_htlcs received_htlcs : List HTLCInfo2) : CommitmentInfo2 :=
  { is_counterparty_broadcaster := false
    to_countersigner_pubkey :=
      if c.setup.option_static_remotekey then
        c.keys.counterparty_pubkeys.payment_point
      else
        crypto.derive_public_key per_commitment_point
          c.keys.counterparty_pubkeys.payment_point
    to_countersigner_value_sat := to_counterparty_value_sat
    revocation_pubkey :=
      crypto.derive_revocation_pubkey per_commitment_point
        c.keys.counterparty_pubkeys.revocation_basepoint
    to_broadcaster_delayed_pubkey :=
      crypto.derive_public_key per_commitment_point
        c.keys.pubkeys.delayed_payment_basepoint
    to_broadcaster_value_sat := to_holder_value_sat
    to_self_delay := c.setup.counterparty_selected_contest_delay
    offered_htlcs := offered_htlcs
    received_htlcs := received_htlcs }

/-- Modelled from the spec: `EnforcementState::set_next_counterparty_commit_num`
(policy/validator.rs, not under src/).  Spec §4.3 check 1: the commitment being
signed may be the current pending one (retransmission, `num = next`, info and
point must be unchanged) or the next one (`num = next + 1`, which advances the
counter and rotates current into previous). -/
def EnforcementState.set_next_counterparty_commit_num (e : EnforcementState)
    (num : Nat) (current_point : PubKey) (info2 : CommitmentInfo2) :
    Except Status EnforcementState :=
  if num = e.next_counterparty_commit_num + 1 then
    .ok { e with
      next_counterparty_commit_num := num
      previous_counterparty_point := e.current_counterparty_point
      current_counterparty_point := some current_point
      previous_counterparty_commit_info := e.current_counterparty_commit_info
      current_counterparty_commit_info := some info2 }
  else if num = e.next_counterparty_commit_num then
    if e.current_counterparty_point = some current_point ∧
        e.current_counterparty_commit_info = some info2 then
      .ok e
    else
      .error (.policyFailure "retransmission of pending counterparty commitment differs")
  else
    .error (.policyFailure "invalid next counterparty commit num")

/-- Modelled from the spec: `EnforcementState::set_next_holder_commit_num`
(policy/validator.rs, not under src/).  Spec §3 invariant 2:
`next_holder_commit_num` increases strictly by 1 per successfully validated
holder commitment; the validated info becomes current. -/
def EnforcementState.set_next_holder_commit_num (e : EnforcementState)
    (num : Nat) (info2 : CommitmentInfo2) : Except Status EnforcementState :=
  if num = e.next_holder_commit_num + 1 then
    .ok { e with
      next_holder_commit_num := num
      previous_holder_commit_info := e.current_holder_commit_info
      current_holder_commit_info := some info2 }
  else
    .error (.policyFailure "invalid next holder commit num")

/-- Modelled from the spec: `EnforcementState::set_next_counterparty_revoke_num`
(policy/validator.rs, not under src/): the revocation counter advances by 1. -/
def EnforcementState.set_next_counterparty_revoke_num (e : EnforcementState)
    (num : Nat) : Except Status EnforcementState :=
  if num = e.next_counterparty_revoke_num + 1 then
    .ok { e with next_counterparty_revoke_num := num }
  else
    .error (.policyFailure "invalid next counterparty revoke num")

/-- ValidatorState passed to the validator (the current height is stubbed to 0
in channel.rs). -/
structure ValidatorState where
  current_height : Nat
deriving DecidableEq, Repr

/-- The policy validator interface consumed by channel.rs
(`policy::validator::Validator`, produced by the node's validator factory).
Its implementation is not under src/, so the operations are uninterpreted
here; claims about specific checks quantify over validators satisfying the
spec's description of the check. -/
structure Validator where
  validate_channel_open : ChannelSetup → Except Status Unit
  make_info :
    InMemorySigner → ChannelSetup → Bool → BitcoinTx → List Witscript →
      Except Status CommitmentInfo
  validate_commitment_tx :
    EnforcementState → Nat → PubKey → ChannelSetup → ValidatorState →
      CommitmentInfo2 → Except Status Unit
  validate_holder_commitment_state : EnforcementState → Except Status Unit
  validate_counterparty_revocation : EnforcementState → Nat → Nat → Except Status Unit
  validate_sign_holder_commitment_tx : EnforcementState → Nat → Except Status Unit

/-- Channel::sign_counterparty_commitment_tx (channel.rs lines 981-1093).
State-passing embedding: the result pairs the returned value with the channel
after the call.  `persist_ok` is the outcome of `Channel::persist` (the
persister is external); in the source the enforcement state is advanced and
the signature computed before persisting, and a persist failure returns an
error without undoing the state mutation. -/
def Channel.sign_counterparty_commitment_tx (c : Channel) (v : Validator)
    (crypto : Crypto) (persist_ok : Bool) (tx : BitcoinTx)
    (output_witscripts : List Witscript) (remote_per_commitment_point : PubKey)
    (commitment_number feerate_per_kw : Nat)
    (offered_htlcs received_htlcs : List HTLCInfo2) :
    Except Status Signature × Channel :=
  if tx.output.length ≠ output_witscripts.length then
    (.error (.invalidArgument "len(tx.output) != len(witscripts)"), c)
  else
    match v.validate_channel_open c.setup with
    | .error e => (.error e, c)
    | .ok _ =>
      match v.make_info c.keys c.setup true tx output_witscripts with
      | .error e => (.error e, c)
      | .ok info =>
        let info2 := c.build_counterparty_commitment_info crypto
          remote_per_commitment_point info.to_countersigner_value_sat
          info.to_broadcaster_value_sat offered_htlcs received_htlcs
        match v.validate_commitment_tx c.enforcement_state commitment_number
            remote_per_commitment_point c.setup ⟨0⟩ info2 with
        | .error e => (.error e, c)
        | .ok _ =>
          let htlcs := Channel.htlcs_info2_to_oic info2.offered_htlcs info2.received_htlcs
          let recomposed_tx := c.make_counterparty_commitment_tx crypto
            remote_per_commitment_point commitment_number feerate_per_kw
            info.to_countersigner_value_sat info.to_broadcaster_value_sat htlcs
          if crypto.built_transaction recomposed_tx ≠ tx then
            (.error (.policyFailure "recomposed tx mismatch"), c)
          else
            let commit_num := INITIAL_COMMITMENT_NUMBER - recomposed_tx.commitment_number
            let point := recomposed_tx.keys.per_commitment_point
            match c.enforcement_state.set_next_counterparty_commit_num
                (commit_num + 1) point info2 with
            | .error e => (.error e, c)
            | .ok e2 =>
              let c2 := { c with enforcement_state := e2 }
              let sig := crypto.sign_counterparty_commitment recomposed_tx
              if persist_ok then (.ok sig, c2)
              else (.error (.internalError "persist failed"), c2)

/-- Channel::make_recomposed_holder_commitment_tx_common (channel.rs lines
1143-1214): derives the semantic info, validates it, rebuilds the holder
commitment and requires bitwise equality with the supplied raw transaction. -/
def Channel.make_recomposed_holder_commitment_tx_common (c : Channel)
    (v : Validator) (crypto : Crypto) (tx : BitcoinTx)
    (commitment_number feerate_per_kw : Nat)
    (offered_htlcs received_htlcs : List HTLCInfo2) (info : CommitmentInfo) :
    Except Status (CommitmentTransaction × CommitmentInfo2) :=
  match c.get_per_commitment_point commitment_number with
  | .error e => .error e
  | .ok commitment_point =>
    let info2 := c.build_holder_commitment_info crypto commitment_point
      info.to_broadcaster_value_sat info.to_countersigner_value_sat
      offered_htlcs received_htlcs
    match v.validate_commitment_tx c.enforcement_state commitment_number
        commitment_point c.setup ⟨0⟩ info2 with
    | .error e => .error e
    | .ok _ =>
      let htlcs := Channel.htlcs_info2_to_oic info2.offered_htlcs info2.received_htlcs
      match c.make_holder_commitment_tx crypto commitment_number feerate_per_kw
          info.to_broadcaster_value_sat info.to_countersigner_value_sat htlcs with
      | .error e => .error e
      | .ok recomposed_tx =>
        if crypto.built_transaction recomposed_tx ≠ tx then
          .error (.policyFailure "recomposed tx mismatch")
        else
          .ok (recomposed_tx, info2)

/-- Channel::make_recomposed_holder_commitment_tx (channel.rs lines 1095-1141). -/
def Channel.make_recomposed_holder_commitment_tx (c : Channel) (v : Validator)
    (crypto : Crypto) (tx : BitcoinTx) (output_witscripts : List Witscript)
    (commitment_number feerate_per_kw : Nat)
    (offered_htlcs received_htlcs : List HTLCInfo2) :
    Except Status (CommitmentTransaction × CommitmentInfo2) :=
  if tx.output.length ≠ output_witscripts.length then
    .error (.invalidArgument "len(tx.output) != len(witscripts)")
  else
    match v.validate_channel_open c.setup with
    | .error e => .error e
    | .ok _ =>
      match v.make_info c.keys c.setup false tx output_witscripts with
      | .error e => .error e
      | .ok info =>
        c.make_recomposed_holder_commitment_tx_common v crypto tx
          commitment_number feerate_per_kw offered_htlcs received_htlcs info

/-- Sighash type selection of channel.rs lines 1256-1260: anchors commitments
use SinglePlusAnyoneCanPay, all others SIGHASH_ALL. -/
def Channel.commitment_sig_hash_type (c : Channel) : SigHashT :=
  if c.setup.option_anchor_outputs then SigHashT.singlePlusAnyoneCanPay
  else SigHashT.all

/-- Loop body of Channel::validate_holder_commitment_tx over the recomposed
HTLCs (channel.rs lines 1296-1332): rebuild each HTLC transaction and verify
the counterparty's signature on it.  The Rust code indexes
`counterparty_htlc_sigs[ndx]` and would panic if a signature is missing; that
out-of-bounds access is modelled as an internal error. -/
def Channel.verify_counterparty_htlc_sigs (crypto : Crypto) (txkeys : TxCreationKeys)
    (commitment_txid feerate_per_kw to_self_delay : Nat) (htlc_pubkey : PubKey) :
    List HTLCOutputInCommitment → List Signature → Except Status Unit
  | [], _ => .ok ()
  | _ :: _, [] => .error (.internalError "missing counterparty htlc signature")
  | htlc :: htlcs, s :: sigs =>
    let htlc_redeemscript := crypto.get_htlc_redeemscript htlc txkeys
    let recomposed_htlc_tx := crypto.build_htlc_transaction commitment_txid
      feerate_per_kw to_self_delay htlc txkeys.broadcaster_delayed_payment_key
      txkeys.revocation_key
    let recomposed_tx_sighash := crypto.signature_hash recomposed_htlc_tx 0
      htlc_redeemscript (htlc.amount_msat / 1000) SigHashT.all
    if crypto.verify recomposed_tx_sighash s htlc_pubkey then
      Channel.verify_counterparty_htlc_sigs crypto txkeys commitment_txid
        feerate_per_kw to_self_delay htlc_pubkey htlcs sigs
    else
      .error (.policyFailure "commit sig verify failed for htlc")

/-- Channel::validate_holder_commitment_tx (channel.rs lines 1222-1356).
Verifies the counterparty signatures on the recomposed commitment and HTLC
transactions, advances `next_holder_commit_num`, and returns the next
per-commitment point together with the secret for `commitment_number - 1`
when `commitment_number ≥ 1`.  The two final `unwrap`s in the source are
guaranteed to succeed after the advance; their failure branches are modelled
as internal errors and are provably unreachable. -/
def Channel.validate_holder_commitment_tx (c : Channel) (v : Validator)
    (crypto : Crypto) (persist_ok : Bool) (tx : BitcoinTx)
    (output_witscripts : List Witscript) (commitment_number feerate_per_kw : Nat)
    (offered_htlcs received_htlcs : List HTLCInfo2)
    (counterparty_commit_sig : Signature) (counterparty_htlc_sigs : List Signature) :
    Except Status (PubKey × Option Nat) × Channel :=
  match v.validate_holder_commitment_state c.enforcement_state with
  | .error e => (.error e, c)
  | .ok _ =>
    match c.make_recomposed_holder_commitment_tx v crypto tx output_witscripts
        commitment_number feerate_per_kw offered_htlcs received_htlcs with
    | .error e => (.error e, c)
    | .ok (recomposed_tx, info2) =>
      let redeemscript := crypto.make_funding_redeemscript c.keys.pubkeys.funding_pubkey
        c.setup.counterparty_points.funding_pubkey
      let sighash := crypto.signature_hash (crypto.built_transaction recomposed_tx) 0
        redeemscript c.setup.channel_value_sat c.commitment_sig_hash_type
      if crypto.verify sighash counterparty_commit_sig
          c.setup.counterparty_points.funding_pubkey = false then
        (.error (.policyFailure "commit sig verify failed"), c)
      else
        match c.get_per_commitment_point commitment_number with
        | .error e => (.error e, c)
        | .ok per_commitment_point =>
          let txkeys := c.make_holder_tx_keys crypto per_commitment_point
          let commitment_txid := crypto.txid recomposed_tx
          let to_self_delay := c.setup.counterparty_selected_contest_delay
          let htlc_pubkey := crypto.derive_public_key per_commitment_point
            c.keys.counterparty_pubkeys.htlc_basepoint
          match Channel.verify_counterparty_htlc_sigs crypto txkeys commitment_txid
              feerate_per_kw to_self_delay htlc_pubkey recomposed_tx.htlcs
              counterparty_htlc_sigs with
          | .error e => (.error e, c)
          | .ok _ =>
            match c.enforcement_state.set_next_holder_commit_num
                (commitment_number + 1) info2 with
            | .error e => (.error e, c)
            | .ok e2 =>
              let c2 := { c with enforcement_state := e2 }
              match c2.get_per_commitment_point (commitment_number + 1) with
              | .error _ => (.error (.internalError "unwrap failed"), c2)
              | .ok next_holder_commitment_point =>
                match (if 1 ≤ commitment_number then
                    (c2.get_per_commitment_secret (commitment_number - 1)).map some
                  else .ok none) with
                | .error _ => (.error (.internalError "unwrap failed"), c2)
                | .ok maybe_old_secret =>
                  if persist_ok then
                    (.ok (next_holder_commitment_point, maybe_old_secret), c2)
                  else
                    (.error (.internalError "persist failed"), c2)

/-- Channel::validate_counterparty_revocation (channel.rs lines 1358-1379). -/
def Channel.validate_counterparty_revocation (c : Channel) (v : Validator)
    (persist_ok : Bool) (revoke_num : Nat) (old_secret : Nat) :
    Except Status Unit × Channel :=
  match v.validate_counterparty_revocation c.enforcement_state revoke_num old_secret with
  | .error e => (.error e, c)
  | .ok _ =>
    match c.enforcement_state.set_next_counterparty_revoke_num (revoke_num + 1) with
    | .error e => (.error e, c)
    | .ok e2 =>
      let c2 := { c with enforcement_state := e2 }
      if persist_ok then (.ok (), c2)
      else (.error (.internalError "persist failed"), c2)

/-- Channel::sign_holder_commitment_tx (channel.rs lines 1381-1440); takes
`&self`, so the enforcement state is unchanged. -/
def Channel.sign_holder_commitment_tx (c : Channel) (v : Validator)
    (crypto : Crypto) (persist_ok : Bool) (tx : BitcoinTx)
    (output_witscripts : List Witscript) (commitment_number feerate_per_kw : Nat)
    (offered_htlcs received_htlcs : List HTLCInfo2) : Except Status Signature :=
  match v.validate_sign_holder_commitment_tx c.enforcement_state commitment_number with
  | .error e => .error e
  | .ok _ =>
    match c.make_recomposed_holder_commitment_tx v crypto tx output_witscripts
        commitment_number feerate_per_kw offered_htlcs received_htlcs with
    | .error e => .error e
    | .ok (recomposed_tx, _) =>
      let sig := crypto.sign_holder_commitment recomposed_tx
      if persist_ok then .ok sig else .error (.internalError "persist failed")

/-- Channel::sign_mutual_close_tx (channel.rs lines 1443-1460): signs with the
funding key, then sets `mutual_close_signed` and persists. -/
def Channel.sign_mutual_close_tx (c : Channel) (crypto : Crypto) (persist_ok : Bool)
    (tx : BitcoinTx) (funding_amount_sat : Nat) : Except Status Signature × Channel :=
  let sig := crypto.sign_commitment tx funding_amount_sat
  let c2 := { c with enforcement_state :=
    { c.enforcement_state with mutual_close_signed := true } }
  if persist_ok then (.ok sig, c2)
  else (.error (.internalError "persist failed"), c2)

/-- Channel::sign_justice_sweep (channel.rs lines 823-851): computes the BIP143
sighash of the supplied transaction, derives the revocation private key and
signs.  Note the source performs no validation of the transaction at all —
no destination, version, locktime, sequence, shape or fee check — and does
not even take a `wallet_path` argument, although the sibling test file
sign_justice_sweep_tests.rs calls it with a `wallet_path` and asserts
`validate_justice_sweep` policy failures. -/
def Channel.sign_justice_sweep (c : Channel) (crypto : Crypto) (persist_ok : Bool)
    (tx : BitcoinTx) (input : Nat) (revocation_secret : Nat)
    (redeemscript : Script) (htlc_amount_sat : Nat) : Except Status Signature :=
  let sighash := crypto.signature_hash tx input redeemscript htlc_amount_sat SigHashT.all
  let privkey := crypto.derive_private_revocation_key revocation_secret
    c.keys.revocation_base_key
  let sig := crypto.sign sighash privkey
  if persist_ok then .ok sig else .error (.internalError "persist failed")

/-- A transaction input (bitcoin::TxIn); only `previous_output` is read by the
chain follower. -/
structure TxIn where
  previous_output : OutPoint
deriving DecidableEq, Repr

/-- A transaction output (bitcoin::TxOut); the chain follower only counts them. -/
structure TxOut where
  value : Nat
deriving DecidableEq, Repr

/-- A bitcoin transaction as inspected by chain_follower.rs.  `txid` is the
transaction hash computed by the bitcoin library (`Transaction::txid()`),
carried here as data. -/
structure Transaction where
  txid : Nat
  input : List TxIn
  output : List TxOut
deriving DecidableEq, Repr

/-- A block (bitcoin::Block); only the transaction list is inspected. -/
structure Block where
  txdata : List Transaction
deriving DecidableEq, Repr

/-- Modelled from the bitcoin library: a partial merkle tree is determined by
the txid list and the match flags passed to `PartialMerkleTree::from_txids`;
`extract_matches` returns exactly the flagged txids. -/
structure PartialMerkleTree where
  txids : List Nat
  «matches» : List Bool
deriving DecidableEq, Repr

def PartialMerkleTree.from_txids (txids : List Nat) (flags : List Bool) :
    PartialMerkleTree :=
  ⟨txids, flags⟩

/-- Txids flagged as matched in the partial merkle tree. -/
def PartialMerkleTree.matched_txids (p : PartialMerkleTree) : List Nat :=
  (p.txids.zip p.«matches»).filterMap fun tb => if tb.2 then some tb.1 else none

/-- Outpoints of all outputs of a transaction, as added to the watch set by
build_proof (chain_follower.rs lines 253-257). -/
def Transaction.out_points (tx : Transaction) : List OutPoint :=
  (List.range tx.output.length).map fun vout => ⟨tx.txid, vout⟩

/-- Loop of build_proof (chain_follower.rs lines 243-261): walk the block's
transactions in order, collecting every txid, a match flag per transaction,
and the matched transactions; outputs of a matched transaction are added to
the watched outpoints.  The Rust `BTreeSet`s are modelled as lists — only
membership is consulted. -/
def build_proof_loop (watched_txids : List Nat) :
    List OutPoint → List Transaction → List Nat × List Bool × List Transaction
  | _, [] => ([], [], [])
  | watched_outpoints, tx :: rest =>
    if tx.txid ∈ watched_txids ∨
        ∃ inp ∈ tx.input, inp.previous_output ∈ watched_outpoints then
      let r := build_proof_loop watched_txids
        (watched_outpoints ++ tx.out_points) rest
      (tx.txid :: r.1, true :: r.2.1, tx :: r.2.2)
    else
      let r := build_proof_loop watched_txids watched_outpoints rest
      (tx.txid :: r.1, false :: r.2.1, r.2.2)

/-- build_proof (chain_follower.rs lines 233-269). -/
def build_proof (block : Block) (txid_watches : List Nat)
    (outpoint_watches : List OutPoint) :
    List Transaction × Option PartialMerkleTree :=
  let r := build_proof_loop txid_watches outpoint_watches block.txdata
  if r.2.2.isEmpty then
    ([], none)
  else
    (r.2.2, some (PartialMerkleTree.from_txids r.1 r.2.1))

/-- Declarative restatement of the spec sentence for build_proof: a
transaction matches when its txid is watched, or it spends a watched
outpoint, or it spends an output of an earlier matched transaction of the
same block (`matched` accumulates the earlier matched transactions). -/
def spec_matched_txs (watched_txids : List Nat) (watched_outpoints : List OutPoint) :
    List Transaction → List Transaction → List Transaction
  | _, [] => []
  | matched, tx :: rest =>
    if tx.txid ∈ watched_txids ∨
        ∃ inp ∈ tx.input, inp.previous_output ∈ watched_outpoints ∨
          ∃ m ∈ matched, inp.previous_output.txid = m.txid ∧
            inp.previous_output.vout < m.output.length then
      tx :: spec_matched_txs watched_txids watched_outpoints (matched ++ [tx]) rest
    else
      spec_matched_txs watched_txids watched_outpoints matched rest

/-- Concrete channel basepoints used for closed evaluations. -/
def testPoints : ChannelPublicKeys :=
  ⟨1, 2, 3, 4, 5⟩

/-- Concrete counterparty basepoints used for closed evaluations. -/
def testCtpPoints : ChannelPublicKeys :=
  ⟨6, 7, 8, 9, 10⟩

/-- Concrete signer with an identity per-commitment key schedule. -/
def testSigner : InMemorySigner :=
  { pubkeys := testPoints
    counterparty_pubkeys := testCtpPoints
    per_commitment_point := fun i => i
    commitment_secret := fun i => i
    funding_key := 11
    revocation_base_key := 12
    payment_key := 13
    delayed_payment_base_key := 14
    htlc_base_key := 15 }

/-- Concrete channel setup mirroring the repository's test setup
(3_000_000 sat, contest delays 144, static remote key). -/
def testSetup : ChannelSetup :=
  { is_outbound := true
    channel_value_sat := 3000000
    push_value_msat := 0
    funding_outpoint := ⟨100, 0⟩
    holder_selected_contest_delay := 144
    holder_shutdown_script := none
    counterparty_points := testCtpPoints
    counterparty_selected_contest_delay := 144
    counterparty_shutdown_script := 20
    commitment_type := CommitmentType.StaticRemoteKey }

/-- Fresh enforcement state (EnforcementState::new(0)). -/
def testState : EnforcementState :=
  { next_holder_commit_num := 0
    next_counterparty_commit_num := 0
    next_counterparty_revoke_num := 0
    current_counterparty_point := none
    previous_counterparty_point := none
    current_holder_commit_info := none
    previous_holder_commit_info := none
    current_counterparty_commit_info := none
    previous_counterparty_commit_info := none
    mutual_close_signed := false }

/-- Concrete ready channel for closed evaluations. -/
def testChannel : Channel :=
  { nonce := [0]
    keys := testSigner
    enforcement_state := testState
    setup := testSetup }

/-- Concrete ready channel whose next holder commitment number is 1. -/
def testChannel1 : Channel :=
  { nonce := [0]
    keys := testSigner
    enforcement_state := { testState with next_holder_commit_num := 1 }
    setup := testSetup }

/-- Concrete stand-in for the external cryptographic primitives.  The built
transaction of a commitment records its backwards commitment number, so
distinct commitment numbers rebuild to distinct raw transactions. -/
def testCrypto : Crypto :=
  { derive_public_key := fun p b => p + b
    derive_revocation_pubkey := fun p b => p * 1000 + b
    derive_private_key := fun p b => p + b
    derive_private_revocation_key := fun p b => p + b
    built_transaction := fun ct => ⟨[], ct.commitment_number⟩
    txid := fun ct => ct.commitment_number
    sign_counterparty_commitment := fun _ => 77
    sign_holder_commitment := fun _ => 78
    sign_commitment := fun _ _ => 79
    make_funding_redeemscript := fun a b => a + b
    signature_hash := fun _ _ _ _ _ => 55
    verify := fun _ _ _ => true
    sign := fun m k => m + k
    get_htlc_redeemscript := fun _ _ => 66
    build_htlc_transaction := fun _ _ _ _ _ _ => ⟨[], 5⟩ }

/-- Concrete validator used for closed evaluations: it implements the spec's
mutual-close check (§3 invariant 4) and accepts everything else. -/
def testValidator : Validator :=
  { validate_channel_open := fun _ => .ok ()
    make_info := fun _ _ _ _ _ => .ok ⟨1000000, 1979997⟩
    validate_commitment_tx := fun e _ _ _ _ _ =>
      if e.mutual_close_signed then .error (.policyFailure "mutual close signed")
      else .ok ()
    validate_holder_commitment_state := fun _ => .ok ()
    validate_counterparty_revocation := fun _ _ _ => .ok ()
    validate_sign_holder_commitment_tx := fun _ _ => .ok () }

/-- C1: for a Ready channel, `get_per_commitment_secret N` returns the derived
per-commitment secret for index `N` if and only if
`N + 2 ≤ next_holder_commit_num`, and otherwise fails with the PolicyFailure
tagged policy-v2-revoke-new-commitment-signed in the source.  The Rust method
takes `&self`, so the channel state is unchanged in every case — the
embedding is accordingly a pure function of the channel. -/
theorem C1_get_per_commitment_secret_gating (c : Channel) (n : Nat) :
    (n + 2 ≤ c.enforcement_state.next_holder_commit_num ∧
      c.get_per_commitment_secret n =
        .ok (c.keys.commitment_secret (INITIAL_COMMITMENT_NUMBER - n))) ∨
    (n + 2 > c.enforcement_state.next_holder_commit_num ∧
      c.get_per_commitment_secret n =
        .error (.policyFailure "get_per_commitment_secret: commitment_number invalid")) := by
  by_cases h : n + 2 > c.enforcement_state.next_holder_commit_num
  · exact Or.inr ⟨h, by simp [Channel.get_per_commitment_secret, h]⟩
  · exact Or.inl ⟨by omega, by simp [Channel.get_per_commitment_secret, h]⟩

/-- C9: for a Ready channel, `get_per_commitment_point N` returns the derived
point whenever `N ≤ next_holder_commit_num` (including the not-yet-signed
next index) and a policy error whenever `N > next_holder_commit_num`; the
Rust method takes `&self`, so it never mutates channel state (the embedding
is a pure function of the channel). -/
theorem C9_get_per_commitment_point_gating (c : Channel) (n : Nat) :
    (n ≤ c.enforcement_state.next_holder_commit_num ∧
      c.get_per_commitment_point n =
        .ok (c.keys.per_commitment_point (INITIAL_COMMITMENT_NUMBER - n))) ∨
    (n > c.enforcement_state.next_holder_commit_num ∧
      c.get_per_commitment_point n =
        .error (.policyFailure "get_per_commitment_point: commitment_number invalid")) := by
  by_cases h : n > c.enforcement_state.next_holder_commit_num
  · exact Or.inr ⟨h, by simp [Channel.get_per_commitment_point, h]⟩
  · exact Or.inl ⟨by omega, by simp [Channel.get_per_commitment_point, h]⟩

/-- C7: a ChannelStub answers `get_per_commitment_point 0`; for any other
index the point query is a policy error; the secret query is a policy error
for every index; `check_future_secret` and the nonce query always succeed. -/
theorem C7_channel_stub_operations (st : ChannelStub) (n suggested : Nat) :
    st.get_per_commitment_point 0 =
      .ok (st.keys.per_commitment_point INITIAL_COMMITMENT_NUMBER) ∧
    (n = 0 ∨ ∃ m, st.get_per_commitment_point n = .error (.policyFailure m)) ∧
    (∃ m, st.get_per_commitment_secret n = .error (.policyFailure m)) ∧
    (∃ b, st.check_future_secret n suggested = .ok b) ∧
    st.get_nonce = st.nonce := by
  refine ⟨by simp [ChannelStub.get_per_commitment_point], ?_, ?_, ?_, rfl⟩
  · by_cases h : n = 0
    · exact Or.inl h
    · refine Or.inr
        ⟨"channel stub can only return point for commitment number zero", ?_⟩
      simp [ChannelStub.get_per_commitment_point, h]
  · exact ⟨_, rfl⟩
  · exact ⟨_, rfl⟩

/-- C10: `check_future_secret N s` on both Stub and Ready channels returns
`Ok b` with `b` true exactly when `s` is the per-commitment secret derived
for index `N`; it never errors.  Both Rust methods take `&self`, so no state
changes, and the embedding is a pure function of its arguments, so repeated
calls with the same arguments return the same result. -/
theorem C10_check_future_secret_comparison (c : Channel) (st : ChannelStub)
    (n suggested : Nat) :
    (∃ b, c.check_future_secret n suggested = .ok b ∧
      (b = true ↔ suggested =
        c.keys.commitment_secret (INITIAL_COMMITMENT_NUMBER - n))) ∧
    (∃ b, st.check_future_secret n suggested = .ok b ∧
      (b = true ↔ suggested =
        st.keys.commitment_secret (INITIAL_COMMITMENT_NUMBER - n))) := by
  exact ⟨⟨_, rfl, by simp⟩, ⟨_, rfl, by simp⟩⟩

/-- C6 (code evaluated at the failing input): `Channel::sign_justice_sweep` as
present in src/channel.rs performs none of the justice-sweep validations —
it does not receive a wallet path and signs any transaction, including one
whose destination is in neither the wallet nor the allowlist (the situation
of test `sign_justice_to_local_with_unknown_dest`, which expects
`policy-justice-sweep-destination-allowlisted`). -/
theorem C6_sign_justice_sweep_signs_without_validation :
    Channel.sign_justice_sweep testChannel testCrypto true
      ⟨[1978997], 42⟩ 0 9 66 1979997 = .ok 76 := by
  rfl

/-- Helper: a successful `set_next_holder_commit_num` advanced by exactly one
and produced the rotated state. -/
theorem set_next_holder_commit_num_ok {e : EnforcementState} {num : Nat}
    {i2 : CommitmentInfo2} {e2 : EnforcementState}
    (h : e.set_next_holder_commit_num num i2 = .ok e2) :
    num = e.next_holder_commit_num + 1 ∧
    e2 = { e with
           next_holder_commit_num := num
           previous_holder_commit_info := e.current_holder_commit_info
           current_holder_commit_info := some i2 } := by
  unfold EnforcementState.set_next_holder_commit_num at h
  split at h
  · exact ⟨by assumption, by injection h with h2; exact h2.symm⟩
  · exact Except.noConfusion h

/-- Helper: `set_next_counterparty_commit_num` never changes the mutual-close
latch or the holder counter. -/
theorem set_next_counterparty_commit_num_preserves {e : EnforcementState}
    {num : Nat} {p : PubKey} {i2 : CommitmentInfo2} {e2 : EnforcementState}
    (h : e.set_next_counterparty_commit_num num p i2 = .ok e2) :
    e2.mutual_close_signed = e.mutual_close_signed ∧
    e2.next_holder_commit_num = e.next_holder_commit_num := by
  unfold EnforcementState.set_next_counterparty_commit_num at h
  split at h
  · injection h with h2
    subst h2
    exact ⟨rfl, rfl⟩
  · split at h
    · split at h
      · injection h with h2
        subst h2
        exact ⟨rfl, rfl⟩
      · exact Except.noConfusion h
    · exact Except.noConfusion h

/-- Helper: `set_next_counterparty_revoke_num` never changes the mutual-close
latch. -/
theorem set_next_counterparty_revoke_num_preserves {e : EnforcementState}
    {num : Nat} {e2 : EnforcementState}
    (h : e.set_next_counterparty_revoke_num num = .ok e2) :
    e2.mutual_close_signed = e.mutual_close_signed := by
  unfold EnforcementState.set_next_counterparty_revoke_num at h
  split at h
  · injection h with h2
    subst h2
    rfl
  · exact Except.noConfusion h

/-- C5 counterexample: a concrete successful validation whose persistence
fails.  The call returns an error (and releases no signature), but the
in-memory enforcement state is NOT rolled back: channel.rs advances
`next_counterparty_commit_num` before persisting and a persist failure leaves
the advanced state in place, contradicting the claim's rollback requirement. -/
theorem C5_counterexample_no_rollback :
    (Channel.sign_counterparty_commitment_tx testChannel testValidator testCrypto
        false ⟨[], INITIAL_COMMITMENT_NUMBER⟩ [] 10 0 5000 [] []).fst =
      .error (.internalError "persist failed") ∧
    (Channel.sign_counterparty_commitment_tx testChannel testValidator testCrypto
        false ⟨[], INITIAL_COMMITMENT_NUMBER⟩ [] 10 0 5000 [] []).snd.enforcement_state ≠
      testChannel.enforcement_state := by
  refine ⟨rfl, ?_⟩
  decide

/-- C5 amended: when persistence fails, every state-advancing signing
operation (`sign_counterparty_commitment_tx`, `validate_holder_commitment_tx`)
returns an error, so no signature or secret is released to the caller; the
in-memory EnforcementState, however, is not rolled back (see the
counterexample). -/
theorem C5_persist_failure_releases_nothing (c : Channel) (v : Validator)
    (crypto : Crypto) (tx : BitcoinTx) (ws : List Witscript) (rpcp : PubKey)
    (n fr : Nat) (off recv : List HTLCInfo2) (csig : Signature)
    (hsigs : List Signature) :
    (∃ m, (Channel.sign_counterparty_commitment_tx c v crypto false tx ws rpcp
      n fr off recv).fst = .error m) ∧
    (∃ m, (Channel.validate_holder_commitment_tx c v crypto false tx ws
      n fr off recv csig hsigs).fst = .error m) := by
  constructor
  · unfold Channel.sign_counterparty_commitment_tx
    dsimp only
    repeat' split
    all_goals first
      | exact ⟨_, rfl⟩
      | simp_all
  · unfold Channel.validate_holder_commitment_tx
    dsimp only
    repeat' split
    all_goals first
      | exact ⟨_, rfl⟩
      | simp_all

/-- Helper: a successful `get_per_commitment_point` returns the derived point
and implies the index is within the gate. -/
theorem get_per_commitment_point_ok {c : Channel} {n : Nat} {p : PubKey}
    (h : c.get_per_commitment_point n = .ok p) :
    p = c.keys.per_commitment_point (INITIAL_COMMITMENT_NUMBER - n) ∧
    n ≤ c.enforcement_state.next_holder_commit_num := by
  unfold Channel.get_per_commitment_point at h
  dsimp only at h
  split at h
  · exact Except.noConfusion h
  · injection h with h2
    refine ⟨h2.symm, ?_⟩
    omega

/-- Helper: a successful `get_per_commitment_secret` returns the derived
secret and implies the revocation gate held. -/
theorem get_per_commitment_secret_ok {c : Channel} {n : Nat} {s : Nat}
    (h : c.get_per_commitment_secret n = .ok s) :
    s = c.keys.commitment_secret (INITIAL_COMMITMENT_NUMBER - n) ∧
    n + 2 ≤ c.enforcement_state.next_holder_commit_num := by
  unfold Channel.get_per_commitment_secret at h
  dsimp only at h
  split at h
  · exact Except.noConfusion h
  · injection h with h2
    refine ⟨h2.symm, ?_⟩
    omega

/-- Helper inversion for `sign_counterparty_commitment_tx`: a released
signature implies the supplied raw transaction was bitwise equal to the
reconstruction from the semantic inputs, the validator accepted, and
persistence succeeded; the signature is over the reconstruction. -/
theorem sign_counterparty_commitment_tx_ok_inversion
    {c : Channel} {v : Validator} {crypto : Crypto} {pok : Bool} {tx : BitcoinTx}
    {ws : List Witscript} {rpcp : PubKey} {n fr : Nat}
    {off recv : List HTLCInfo2} {sig : Signature}
    (h : (Channel.sign_counterparty_commitment_tx c v crypto pok tx ws rpcp n fr
      off recv).fst = .ok sig) :
    ∃ info,
      v.make_info c.keys c.setup true tx ws = .ok info ∧
      v.validate_commitment_tx c.enforcement_state n rpcp c.setup ⟨0⟩
        (c.build_counterparty_commitment_info crypto rpcp
          info.to_countersigner_value_sat info.to_broadcaster_value_sat
          off recv) = .ok () ∧
      crypto.built_transaction (c.make_counterparty_commitment_tx crypto rpcp n fr
        info.to_countersigner_value_sat info.to_broadcaster_value_sat
        (Channel.htlcs_info2_to_oic off recv)) = tx ∧
      pok = true ∧
      sig = crypto.sign_counterparty_commitment
        (c.make_counterparty_commitment_tx crypto rpcp n fr
          info.to_countersigner_value_sat info.to_broadcaster_value_sat
          (Channel.htlcs_info2_to_oic off recv)) := by
  unfold Channel.sign_counterparty_commitment_tx at h
  dsimp only at h
  split at h
  · exact Except.noConfusion h
  · split at h
    · exact Except.noConfusion h
    · split at h
      · exact Except.noConfusion h
      · rename_i info heq_info
        split at h
        · exact Except.noConfusion h
        · rename_i u heq_val
          split at h
          · exact Except.noConfusion h
          · rename_i heq_built
            split at h
            · exact Except.noConfusion h
            · rename_i e2 heq_set
              split at h
              · rename_i hpok
                injection h with h2
                refine ⟨info, heq_info, ?_, ?_, hpok, h2.symm⟩
                · cases u
                  exact heq_val
                · simpa using heq_built
              · exact Except.noConfusion h

/-- Helper: `sign_counterparty_commitment_tx` never changes the mutual-close
latch. -/
theorem sign_counterparty_commitment_tx_keeps_latch (c : Channel) (v : Validator)
    (crypto : Crypto) (pok : Bool) (tx : BitcoinTx) (ws : List Witscript)
    (rpcp : PubKey) (n fr : Nat) (off recv : List HTLCInfo2) :
    (Channel.sign_counterparty_commitment_tx c v crypto pok tx ws rpcp n fr off
      recv).snd.enforcement_state.mutual_close_signed =
      c.enforcement_state.mutual_close_signed := by
  unfold Channel.sign_counterparty_commitment_tx
  dsimp only
  repeat' split
  all_goals first
    | rfl
    | exact (set_next_counterparty_commit_num_preserves (by assumption)).1

/-- Helper: a successful `set_next_holder_commit_num` keeps the mutual-close
latch. -/
theorem set_next_holder_commit_num_preserves {e : EnforcementState} {num : Nat}
    {i2 : CommitmentInfo2} {e2 : EnforcementState}
    (h : e.set_next_holder_commit_num num i2 = .ok e2) :
    e2.mutual_close_signed = e.mutual_close_signed := by
  obtain ⟨-, h2⟩ := set_next_holder_commit_num_ok h
  rw [h2]

/-- Helper: `validate_holder_commitment_tx` never changes the mutual-close
latch. -/
theorem validate_holder_commitment_tx_keeps_latch (c : Channel) (v : Validator)
    (crypto : Crypto) (pok : Bool) (tx : BitcoinTx) (ws : List Witscript)
    (n fr : Nat) (off recv : List HTLCInfo2) (csig : Signature)
    (hsigs : List Signature) :
    (Channel.validate_holder_commitment_tx c v crypto pok tx ws n fr off recv
      csig hsigs).snd.enforcement_state.mutual_close_signed =
      c.enforcement_state.mutual_close_signed := by
  unfold Channel.validate_holder_commitment_tx
  dsimp only
  repeat' split
  all_goals first
    | rfl
    | exact set_next_holder_commit_num_preserves (by assumption)

/-- Helper: `validate_counterparty_revocation` never changes the mutual-close
latch. -/
theorem validate_counterparty_revocation_keeps_latch (c : Channel) (v : Validator)
    (pok : Bool) (rn os : Nat) :
    (Channel.validate_counterparty_revocation c v pok rn
      os).snd.enforcement_state.mutual_close_signed =
      c.enforcement_state.mutual_close_signed := by
  unfold Channel.validate_counterparty_revocation
  dsimp only
  repeat' split
  all_goals first
    | rfl
    | exact set_next_counterparty_revoke_num_preserves (by assumption)

/-- C4: `sign_mutual_close_tx` sets the `mutual_close_signed` latch; once the
latch is set, `sign_counterparty_commitment_tx` never releases a signature
and — whenever the call reaches commitment validation — fails with a
PolicyFailure; and no state-advancing channel operation ever resets the
latch.  The mutual-close check itself lives in `validate_commitment_tx`
(policy/validator.rs, not under src/), so it is taken as the hypothesis `hv`,
following spec §3 invariant 4. -/
theorem C4_mutual_close_latch (c : Channel) (v : Validator) (crypto : Crypto)
    (pok : Bool)
    (hv : ∀ e n p s vs i2, e.mutual_close_signed = true →
      ∃ m, v.validate_commitment_tx e n p s vs i2 = .error (.policyFailure m)) :
    (∀ tx amt,
      (Channel.sign_mutual_close_tx c crypto pok tx
        amt).snd.enforcement_state.mutual_close_signed = true) ∧
    (c.enforcement_state.mutual_close_signed = true →
      (∀ tx ws rpcp n fr off recv sig,
        ¬ (Channel.sign_counterparty_commitment_tx c v crypto pok tx ws rpcp n
          fr off recv).fst = .ok sig) ∧
      (∀ tx ws rpcp n fr off recv info,
        tx.output.length = ws.length →
        v.validate_channel_open c.setup = .ok () →
        v.make_info c.keys c.setup true tx ws = .ok info →
        ∃ m, (Channel.sign_counterparty_commitment_tx c v crypto pok tx ws rpcp
          n fr off recv).fst = .error (.policyFailure m)) ∧
      (∀ tx ws rpcp n fr off recv,
        (Channel.sign_counterparty_commitment_tx c v crypto pok tx ws rpcp n fr
          off recv).snd.enforcement_state.mutual_close_signed = true) ∧
      (∀ tx ws n fr off recv csig hsigs,
        (Channel.validate_holder_commitment_tx c v crypto pok tx ws n fr off
          recv csig hsigs).snd.enforcement_state.mutual_close_signed = true) ∧
      (∀ rn os,
        (Channel.validate_counterparty_revocation c v pok rn
          os).snd.enforcement_state.mutual_close_signed = true)) := by
  constructor
  · intro tx amt
    unfold Channel.sign_mutual_close_tx
    dsimp only
    split <;> rfl
  · intro hc
    refine ⟨?_, ?_, ?_, ?_, ?_⟩
    · intro tx ws rpcp n fr off recv sig hok
      obtain ⟨info, _, hval, _, _, _⟩ := sign_counterparty_commitment_tx_ok_inversion hok
      obtain ⟨m, hm⟩ := hv c.enforcement_state n rpcp c.setup ⟨0⟩
        (c.build_counterparty_commitment_info crypto rpcp
          info.to_countersigner_value_sat info.to_broadcaster_value_sat
          off recv) hc
      rw [hm] at hval
      exact Except.noConfusion hval
    · intro tx ws rpcp n fr off recv info hlen hopen hinfo
      obtain ⟨m, hm⟩ := hv c.enforcement_state n rpcp c.setup ⟨0⟩
        (c.build_counterparty_commitment_info crypto rpcp
          info.to_countersigner_value_sat info.to_broadcaster_value_sat
          off recv) hc
      refine ⟨m, ?_⟩
      unfold Channel.sign_counterparty_commitment_tx
      dsimp only
      simp [hlen, hopen, hinfo, hm]
    · intro tx ws rpcp n fr off recv
      rw [sign_counterparty_commitment_tx_keeps_latch]
      exact hc
    · intro tx ws n fr off recv csig hsigs
      rw [validate_holder_commitment_tx_keeps_latch]
      exact hc
    · intro rn os
      rw [validate_counterparty_revocation_keeps_latch]
      exact hc

/-- C2: a signature is released by `sign_counterparty_commitment_tx` only when
the supplied raw transaction is bitwise equal to the transaction rebuilt from
the semantic inputs (values from make_info, HTLCs, per-commitment point,
commitment number); the holder paths (`sign_holder_commitment_tx`,
`validate_holder_commitment_tx`) route through
`make_recomposed_holder_commitment_tx_common`, which likewise succeeds only
when the rebuilt holder commitment equals the supplied raw transaction; and
whenever the call reaches the comparison, a mismatch yields the policy error
"recomposed tx mismatch" and no signature. -/
theorem C2_recomposition_gate (c : Channel) (v : Validator) (crypto : Crypto)
    (pok : Bool) (tx : BitcoinTx) (ws : List Witscript) (rpcp : PubKey)
    (n fr : Nat) (off recv : List HTLCInfo2) :
    (∀ sig,
      (Channel.sign_counterparty_commitment_tx c v crypto pok tx ws rpcp n fr
        off recv).fst = .ok sig →
      ∃ info, v.make_info c.keys c.setup true tx ws = .ok info ∧
        crypto.built_transaction (c.make_counterparty_commitment_tx crypto rpcp
          n fr info.to_countersigner_value_sat info.to_broadcaster_value_sat
          (Channel.htlcs_info2_to_oic off recv)) = tx) ∧
    (∀ info rtx info2,
      c.make_recomposed_holder_commitment_tx_common v crypto tx n fr off recv
        info = .ok (rtx, info2) →
      crypto.built_transaction rtx = tx ∧
      ∃ p, c.get_per_commitment_point n = .ok p ∧
        rtx = Channel.make_holder_commitment_tx_with_keys
          (c.make_holder_tx_keys crypto p) n fr info.to_broadcaster_value_sat
          info.to_countersigner_value_sat
          (Channel.htlcs_info2_to_oic off recv)) ∧
    (∀ info,
      tx.output.length = ws.length →
      v.validate_channel_open c.setup = .ok () →
      v.make_info c.keys c.setup true tx ws = .ok info →
      v.validate_commitment_tx c.enforcement_state n rpcp c.setup ⟨0⟩
        (c.build_counterparty_commitment_info crypto rpcp
          info.to_countersigner_value_sat info.to_broadcaster_value_sat
          off recv) = .ok () →
      crypto.built_transaction (c.make_counterparty_commitment_tx crypto rpcp n
        fr info.to_countersigner_value_sat info.to_broadcaster_value_sat
        (Channel.htlcs_info2_to_oic off recv)) ≠ tx →
      (Channel.sign_counterparty_commitment_tx c v crypto pok tx ws rpcp n fr
        off recv).fst = .error (.policyFailure "recomposed tx mismatch")) := by
  refine ⟨?_, ?_, ?_⟩
  · intro sig hok
    obtain ⟨info, hinfo, _, hbuilt, _, _⟩ :=
      sign_counterparty_commitment_tx_ok_inversion hok
    exact ⟨info, hinfo, hbuilt⟩
  · intro info rtx info2 h
    unfold Channel.make_recomposed_holder_commitment_tx_common at h
    dsimp only at h
    split at h
    · exact Except.noConfusion h
    · rename_i p heq_point
      split at h
      · exact Except.noConfusion h
      · split at h
        · exact Except.noConfusion h
        · rename_i rtx0 heq_mk
          split at h
          · exact Except.noConfusion h
          · rename_i hmatch
            injection h with h2
            obtain ⟨h3, h4⟩ := Prod.mk.injEq .. |>.mp h2
            subst h3
            refine ⟨not_not.mp hmatch, p, heq_point, ?_⟩
            unfold Channel.make_holder_commitment_tx at heq_mk
            rw [heq_point] at heq_mk
            injection heq_mk with h5
            exact h5.symm
  · intro info hlen hopen hinfo hval hmis
    unfold Channel.sign_counterparty_commitment_tx
    dsimp only
    dsimp only [Channel.build_counterparty_commitment_info] at hval hmis
    simp [hlen, hopen, hinfo, Channel.build_counterparty_commitment_info,
      hval, hmis]

/-- Helper: when the HTLC verification loop succeeds, every paired HTLC and
signature passed the secp verification of the rebuilt HTLC transaction. -/
theorem verify_counterparty_htlc_sigs_ok {crypto : Crypto}
    {txkeys : TxCreationKeys} {ctxid fr delay : Nat} {hpk : PubKey} :
    ∀ {htlcs : List HTLCOutputInCommitment} {sigs : List Signature},
    Channel.verify_counterparty_htlc_sigs crypto txkeys ctxid fr delay hpk
      htlcs sigs = .ok () →
    ∀ i, (hi : i < htlcs.length) → (si : i < sigs.length) →
      crypto.verify
        (crypto.signature_hash
          (crypto.build_htlc_transaction ctxid fr delay (htlcs.get ⟨i, hi⟩)
            txkeys.broadcaster_delayed_payment_key txkeys.revocation_key)
          0 (crypto.get_htlc_redeemscript (htlcs.get ⟨i, hi⟩) txkeys)
          ((htlcs.get ⟨i, hi⟩).amount_msat / 1000) SigHashT.all)
        (sigs.get ⟨i, si⟩) hpk = true := by
  intro htlcs
  induction htlcs with
  | nil =>
    intro sigs _ i hi _
    exact absurd hi (by simp)
  | cons htlc rest ih =>
    intro sigs h i hi si
    cases sigs with
    | nil =>
      exact absurd si (by simp)
    | cons s srest =>
      unfold Channel.verify_counterparty_htlc_sigs at h
      dsimp only at h
      split at h
      · rename_i hver
        cases i with
        | zero => exact hver
        | succ j => exact ih h j (by simpa using hi) (by simpa using si)
      · exact Except.noConfusion h

/-- Helper inversion for `validate_holder_commitment_tx`: a successful call
implies the counterparty commitment signature and the whole HTLC signature
loop verified, the holder counter advanced to `n + 1`, persistence succeeded,
and the returned values are the next per-commitment point and (for `n ≥ 1`)
the secret for `n - 1`. -/
theorem validate_holder_commitment_tx_ok_inversion {c : Channel} {v : Validator}
    {crypto : Crypto} {pok : Bool} {tx : BitcoinTx} {ws : List Witscript}
    {n fr : Nat} {off recv : List HTLCInfo2} {csig : Signature}
    {hsigs : List Signature} {r : PubKey × Option Nat} {c2 : Channel}
    (h : Channel.validate_holder_commitment_tx c v crypto pok tx ws n fr off
      recv csig hsigs = (.ok r, c2)) :
    (∃ rtx info2,
      c.make_recomposed_holder_commitment_tx v crypto tx ws n fr off recv =
        .ok (rtx, info2) ∧
      crypto.verify
        (crypto.signature_hash (crypto.built_transaction rtx) 0
          (crypto.make_funding_redeemscript c.keys.pubkeys.funding_pubkey
            c.setup.counterparty_points.funding_pubkey)
          c.setup.channel_value_sat c.commitment_sig_hash_type)
        csig c.setup.counterparty_points.funding_pubkey = true ∧
      Channel.verify_counterparty_htlc_sigs crypto
        (c.make_holder_tx_keys crypto
          (c.keys.per_commitment_point (INITIAL_COMMITMENT_NUMBER - n)))
        (crypto.txid rtx) fr c.setup.counterparty_selected_contest_delay
        (crypto.derive_public_key
          (c.keys.per_commitment_point (INITIAL_COMMITMENT_NUMBER - n))
          c.keys.counterparty_pubkeys.htlc_basepoint)
        rtx.htlcs hsigs = .ok ()) ∧
    c2.enforcement_state.next_holder_commit_num = n + 1 ∧
    r.1 = c.keys.per_commitment_point (INITIAL_COMMITMENT_NUMBER - (n + 1)) ∧
    r.2 = (if 1 ≤ n then
      some (c.keys.commitment_secret (INITIAL_COMMITMENT_NUMBER - (n - 1)))
    else none) ∧
    pok = true := by
  unfold Channel.validate_holder_commitment_tx at h
  dsimp only at h
  split at h
  · exact Except.noConfusion (congrArg Prod.fst h)
  · split at h
    · exact Except.noConfusion (congrArg Prod.fst h)
    · rename_i rtx info2 heq_rec
      split at h
      · exact Except.noConfusion (congrArg Prod.fst h)
      · rename_i hver
        split at h
        · exact Except.noConfusion (congrArg Prod.fst h)
        · rename_i p heq_pt
          split at h
          · exact Except.noConfusion (congrArg Prod.fst h)
          · rename_i u heq_htlc
            split at h
            · exact Except.noConfusion (congrArg Prod.fst h)
            · rename_i e2 heq_set
              split at h
              · exact Except.noConfusion (congrArg Prod.fst h)
              · rename_i np heq_np
                split at h
                · exact Except.noConfusion (congrArg Prod.fst h)
                · rename_i mo heq_mo
                  split at h
                  · rename_i hpok
                    have hfst := congrArg Prod.fst h
                    have hsnd := congrArg Prod.snd h
                    dsimp only at hfst hsnd
                    injection hfst with hfst
                    obtain ⟨hp, hn⟩ := get_per_commitment_point_ok heq_pt
                    obtain ⟨-, he2⟩ := set_next_holder_commit_num_ok heq_set
                    subst hp
                    cases u
                    refine ⟨⟨rtx, info2, heq_rec, by simpa using hver,
                      heq_htlc⟩, ?_, ?_, ?_, hpok⟩
                    · rw [← hsnd, he2]
                    · rw [← hfst]
                      dsimp only
                      obtain ⟨hnp, -⟩ := get_per_commitment_point_ok heq_np
                      rw [hnp, he2]
                    · rw [← hfst]
                      dsimp only
                      split at heq_mo
                      · rename_i h1n
                        rw [if_pos h1n]
                        cases hsec : Channel.get_per_commitment_secret
                            { c with enforcement_state := e2 } (n - 1) with
                        | error e =>
                          rw [hsec] at heq_mo
                          exact Except.noConfusion heq_mo
                        | ok s =>
                          rw [hsec] at heq_mo
                          injection heq_mo with heq_mo
                          obtain ⟨hs, -⟩ := get_per_commitment_secret_ok hsec
                          rw [← heq_mo, hs]
                      · rename_i h1n
                        rw [if_neg h1n]
                        injection heq_mo with heq_mo
                        exact heq_mo.symm
                  · exact Except.noConfusion (congrArg Prod.fst h)

/-- C3: when `validate_holder_commitment_tx` succeeds for commitment number
`n`, the counterparty's signature verified against the rebuilt commitment
transaction, the counterparty's signature on every rebuilt HTLC transaction
verified, `next_holder_commit_num` advanced to `n + 1`, and the returned pair
is the per-commitment point for `n + 1` together with the per-commitment
secret for `n - 1` exactly when `n ≥ 1` (`none` when `n = 0`). -/
theorem C3_validate_holder_commitment_tx_success (c : Channel) (v : Validator)
    (crypto : Crypto) (pok : Bool) (tx : BitcoinTx) (ws : List Witscript)
    (n fr : Nat) (off recv : List HTLCInfo2) (csig : Signature)
    (hsigs : List Signature) (r : PubKey × Option Nat)
    (h : (Channel.validate_holder_commitment_tx c v crypto pok tx ws n fr off
      recv csig hsigs).fst = .ok r) :
    (∃ rtx info2,
      c.make_recomposed_holder_commitment_tx v crypto tx ws n fr off recv =
        .ok (rtx, info2) ∧
      crypto.verify
        (crypto.signature_hash (crypto.built_transaction rtx) 0
          (crypto.make_funding_redeemscript c.keys.pubkeys.funding_pubkey
            c.setup.counterparty_points.funding_pubkey)
          c.setup.channel_value_sat c.commitment_sig_hash_type)
        csig c.setup.counterparty_points.funding_pubkey = true ∧
      (∀ i, (hi : i < rtx.htlcs.length) → (si : i < hsigs.length) →
        crypto.verify
          (crypto.signature_hash
            (crypto.build_htlc_transaction (crypto.txid rtx) fr
              c.setup.counterparty_selected_contest_delay
              (rtx.htlcs.get ⟨i, hi⟩)
              (c.make_holder_tx_keys crypto
                (c.keys.per_commitment_point
                  (INITIAL_COMMITMENT_NUMBER - n))).broadcaster_delayed_payment_key
              (c.make_holder_tx_keys crypto
                (c.keys.per_commitment_point
                  (INITIAL_COMMITMENT_NUMBER - n))).revocation_key)
            0 (crypto.get_htlc_redeemscript (rtx.htlcs.get ⟨i, hi⟩)
              (c.make_holder_tx_keys crypto
                (c.keys.per_commitment_point (INITIAL_COMMITMENT_NUMBER - n))))
            ((rtx.htlcs.get ⟨i, hi⟩).amount_msat / 1000) SigHashT.all)
          (hsigs.get ⟨i, si⟩)
          (crypto.derive_public_key
            (c.keys.per_commitment_point (INITIAL_COMMITMENT_NUMBER - n))
            c.keys.counterparty_pubkeys.htlc_basepoint) = true)) ∧
    (Channel.validate_holder_commitment_tx c v crypto pok tx ws n fr off recv
      csig hsigs).snd.enforcement_state.next_holder_commit_num = n + 1 ∧
    r.1 = c.keys.per_commitment_point (INITIAL_COMMITMENT_NUMBER - (n + 1)) ∧
    r.2 = (if 1 ≤ n then
      some (c.keys.commitment_secret (INITIAL_COMMITMENT_NUMBER - (n - 1)))
    else none) := by
  have hpair : Channel.validate_holder_commitment_tx c v crypto pok tx ws n fr
      off recv csig hsigs =
      (.ok r, (Channel.validate_holder_commitment_tx c v crypto pok tx ws n fr
        off recv csig hsigs).snd) := by
    rw [← h]
  obtain ⟨⟨rtx, info2, heq_rec, hver, hloop⟩, hnext, hr1, hr2, -⟩ :=
    validate_holder_commitment_tx_ok_inversion hpair
  exact ⟨⟨rtx, info2, heq_rec, hver,
    verify_counterparty_htlc_sigs_ok hloop⟩, hnext, hr1, hr2⟩

/-- Concrete channel whose mutual-close latch is set. -/
def testChannelClosed : Channel :=
  { nonce := [0]
    keys := testSigner
    enforcement_state := { testState with mutual_close_signed := true }
    setup := testSetup }

/-- Witness for C2 at concrete inputs: a successful counterparty signing run
implies bitwise equality with the reconstruction; a successful holder
recomposition implies the same; and a mismatching raw transaction yields the
recomposition policy error. -/
theorem C2_recomposition_gate_witness :
    (∃ info, testValidator.make_info testChannel.keys testChannel.setup true
        ⟨[], INITIAL_COMMITMENT_NUMBER⟩ [] = .ok info ∧
      testCrypto.built_transaction
        (testChannel.make_counterparty_commitment_tx testCrypto 10 0 5000
          info.to_countersigner_value_sat info.to_broadcaster_value_sat
          (Channel.htlcs_info2_to_oic [] [])) =
        ⟨[], INITIAL_COMMITMENT_NUMBER⟩) ∧
    (∃ rtx info2,
      testChannel.make_recomposed_holder_commitment_tx_common testValidator
        testCrypto ⟨[], INITIAL_COMMITMENT_NUMBER⟩ 0 5000 [] []
        ⟨1000000, 1979997⟩ = .ok (rtx, info2) ∧
      testCrypto.built_transaction rtx = ⟨[], INITIAL_COMMITMENT_NUMBER⟩) ∧
    (Channel.sign_counterparty_commitment_tx testChannel testValidator
      testCrypto true ⟨[], 0⟩ [] 10 0 5000 [] []).fst =
      .error (.policyFailure "recomposed tx mismatch") := by
  refine ⟨?_, ?_, ?_⟩
  · exact (C2_recomposition_gate testChannel testValidator testCrypto true
      ⟨[], INITIAL_COMMITMENT_NUMBER⟩ [] 10 0 5000 [] []).1 77 rfl
  · refine ⟨_, _, rfl, ?_⟩
    exact ((C2_recomposition_gate testChannel testValidator testCrypto true
      ⟨[], INITIAL_COMMITMENT_NUMBER⟩ [] 10 0 5000 [] []).2.1
      ⟨1000000, 1979997⟩ _ _ rfl).1
  · exact (C2_recomposition_gate testChannel testValidator testCrypto true
      ⟨[], 0⟩ [] 10 0 5000 [] []).2.2 ⟨1000000, 1979997⟩ rfl rfl rfl rfl
      (by decide)

/-- Witness for C3 at concrete inputs: a successful holder-commitment
validation at commitment number 1 advanced the holder counter to 2. -/
theorem C3_validate_holder_commitment_tx_witness :
    (Channel.validate_holder_commitment_tx testChannel1 testValidator
      testCrypto true ⟨[], INITIAL_COMMITMENT_NUMBER - 1⟩ [] 1 5000 [] [] 0
      []).snd.enforcement_state.next_holder_commit_num = 1 + 1 :=
  (C3_validate_holder_commitment_tx_success testChannel1 testValidator
    testCrypto true ⟨[], INITIAL_COMMITMENT_NUMBER - 1⟩ [] 1 5000 [] [] 0 []
    (INITIAL_COMMITMENT_NUMBER - 2, some INITIAL_COMMITMENT_NUMBER) rfl).2.1

/-- Witness for C4 at concrete inputs: after a mutual close the latch is set,
a counterparty commitment signature is refused, and the refusal is a
PolicyFailure. -/
theorem C4_mutual_close_latch_witness :
    (Channel.sign_mutual_close_tx testChannelClosed testCrypto true ⟨[], 0⟩
      0).snd.enforcement_state.mutual_close_signed = true ∧
    ¬ (Channel.sign_counterparty_commitment_tx testChannelClosed testValidator
      testCrypto true ⟨[], INITIAL_COMMITMENT_NUMBER⟩ [] 10 0 5000 []
      []).fst = .ok 0 ∧
    (∃ m, (Channel.sign_counterparty_commitment_tx testChannelClosed
      testValidator testCrypto true ⟨[], INITIAL_COMMITMENT_NUMBER⟩ [] 10 0
      5000 [] []).fst = .error (.policyFailure m)) := by
  have hv : ∀ e n p s vs i2, e.mutual_close_signed = true →
      ∃ m, testValidator.validate_commitment_tx e n p s vs i2 =
        .error (.policyFailure m) := by
    intro e n p s vs i2 he
    exact ⟨"mutual close signed", by simp [testValidator, he]⟩
  have h := C4_mutual_close_latch testChannelClosed testValidator testCrypto
    true hv
  have h2 := h.2 rfl
  exact ⟨h.1 ⟨[], 0⟩ 0, h2.1 _ _ _ _ _ _ _ 0,
    h2.2.1 _ _ _ _ _ _ _ ⟨1000000, 1979997⟩ rfl rfl rfl⟩

/-- Outpoints of all outputs of a list of already-matched transactions, in
block order — the outpoints build_proof has added to the watch set. -/
def watched_out_points : List Transaction → List OutPoint
  | [] => []
  | t :: r => t.out_points ++ watched_out_points r

/-- Helper: membership in a transaction's outpoint list. -/
theorem mem_out_points {m : Transaction} {p : OutPoint} :
    p ∈ m.out_points ↔ p.txid = m.txid ∧ p.vout < m.output.length := by
  unfold Transaction.out_points
  constructor
  · intro hp
    obtain ⟨v, hv, hpe⟩ := List.mem_map.mp hp
    rw [← hpe]
    exact ⟨rfl, List.mem_range.mp hv⟩
  · intro ⟨h1, h2⟩
    refine List.mem_map.mpr ⟨p.vout, List.mem_range.mpr h2, ?_⟩
    cases p
    simp_all

/-- Helper: membership in the accumulated outpoint watches of the matched
transactions. -/
theorem mem_watched_out_points {acc : List Transaction} {p : OutPoint} :
    p ∈ watched_out_points acc ↔
      ∃ m ∈ acc, p.txid = m.txid ∧ p.vout < m.output.length := by
  induction acc with
  | nil => simp [watched_out_points]
  | cons t r ih =>
    simp only [watched_out_points, List.mem_append, ih, mem_out_points,
      List.mem_cons]
    constructor
    · rintro (h | ⟨m, hm, hp⟩)
      · exact ⟨t, Or.inl rfl, h⟩
      · exact ⟨m, Or.inr hm, hp⟩
    · rintro ⟨m, (rfl | hm), hp⟩
      · exact Or.inl hp
      · exact Or.inr ⟨m, hm, hp⟩

/-- Helper: `watched_out_points` distributes over append. -/
theorem watched_out_points_append (l1 l2 : List Transaction) :
    watched_out_points (l1 ++ l2) =
      watched_out_points l1 ++ watched_out_points l2 := by
  induction l1 with
  | nil => simp [watched_out_points]
  | cons t r ih => simp [watched_out_points, ih]

/-- Helper: the first component of the loop lists every txid of the block
slice in order. -/
theorem build_proof_loop_txids (wt : List Nat) :
    ∀ (txs : List Transaction) (wo : List OutPoint),
    (build_proof_loop wt wo txs).1 = txs.map Transaction.txid := by
  intro txs
  induction txs with
  | nil => intro wo; rfl
  | cons tx rest ih =>
    intro wo
    unfold build_proof_loop
    dsimp only
    split
    · simp [ih]
    · simp [ih]

/-- Helper: the txids flagged in the loop's match vector are exactly the
txids of the matched transactions. -/
theorem build_proof_loop_flags (wt : List Nat) :
    ∀ (txs : List Transaction) (wo : List OutPoint),
    PartialMerkleTree.matched_txids
      ⟨(build_proof_loop wt wo txs).1, (build_proof_loop wt wo txs).2.1⟩ =
      ((build_proof_loop wt wo txs).2.2).map Transaction.txid := by
  intro txs
  induction txs with
  | nil => intro wo; rfl
  | cons tx rest ih =>
    intro wo
    unfold build_proof_loop
    dsimp only
    split
    · simpa [PartialMerkleTree.matched_txids] using ih (wo ++ tx.out_points)
    · simpa [PartialMerkleTree.matched_txids] using ih wo

/-- Helper: the loop run on the source's accumulated watch set computes the
spec's matched-transaction list. -/
theorem build_proof_loop_matched (wt : List Nat) (wo : List OutPoint) :
    ∀ (txs acc : List Transaction),
    (build_proof_loop wt (wo ++ watched_out_points acc) txs).2.2 =
      spec_matched_txs wt wo acc txs := by
  intro txs
  induction txs with
  | nil => intro acc; rfl
  | cons tx rest ih =>
    intro acc
    unfold build_proof_loop spec_matched_txs
    dsimp only
    have hcond : (tx.txid ∈ wt ∨
        ∃ inp ∈ tx.input, inp.previous_output ∈ wo ++ watched_out_points acc) ↔
        (tx.txid ∈ wt ∨
        ∃ inp ∈ tx.input, inp.previous_output ∈ wo ∨
          ∃ m ∈ acc, inp.previous_output.txid = m.txid ∧
            inp.previous_output.vout < m.output.length) := by
      simp only [List.mem_append, mem_watched_out_points]
    have hwo : (wo ++ watched_out_points acc) ++ tx.out_points =
        wo ++ watched_out_points (acc ++ [tx]) := by
      rw [watched_out_points_append]
      simp [watched_out_points, List.append_assoc]
    by_cases hc : tx.txid ∈ wt ∨
        ∃ inp ∈ tx.input, inp.previous_output ∈ wo ++ watched_out_points acc
    · rw [if_pos hc, if_pos (hcond.mp hc)]
      dsimp only
      rw [hwo, ih (acc ++ [tx])]
    · rw [if_neg hc, if_neg (fun hx => hc (hcond.mpr hx))]
      dsimp only
      rw [ih acc]

/-- C8: `build_proof` returns exactly the transactions of the block, in block
order, that have a watched txid, spend a watched outpoint, or spend an
output of an earlier matched transaction of the same block
(`spec_matched_txs`); the partial merkle tree, when present, covers all the
block's txids and flags exactly the matched transactions; and when no
transaction matches, the result is the empty list with no proof. -/
theorem C8_build_proof (block : Block) (txid_watches : List Nat)
    (outpoint_watches : List OutPoint) :
    (build_proof block txid_watches outpoint_watches).1 =
      spec_matched_txs txid_watches outpoint_watches [] block.txdata ∧
    ((build_proof block txid_watches outpoint_watches).1 = [] →
      (build_proof block txid_watches outpoint_watches).2 = none) ∧
    (∀ pmt, (build_proof block txid_watches outpoint_watches).2 = some pmt →
      pmt.matched_txids =
        ((build_proof block txid_watches outpoint_watches).1.map
          Transaction.txid) ∧
      pmt.txids = block.txdata.map Transaction.txid) := by
  have hacc : outpoint_watches = outpoint_watches ++ watched_out_points [] := by
    simp [watched_out_points]
  have hmatched :
      (build_proof_loop txid_watches outpoint_watches block.txdata).2.2 =
        spec_matched_txs txid_watches outpoint_watches [] block.txdata := by
    conv_lhs => rw [hacc]
    exact build_proof_loop_matched txid_watches outpoint_watches block.txdata []
  unfold build_proof
  dsimp only
  split
  · rename_i hempty
    refine ⟨?_, fun _ => rfl, ?_⟩
    · dsimp only
      rw [← hmatched]
      exact (List.isEmpty_iff.mp hempty).symm
    · intro pmt hpmt
      exact Option.noConfusion hpmt
  · rename_i hempty
    refine ⟨hmatched, ?_, ?_⟩
    · intro habs
      dsimp only at habs
      rw [habs] at hempty
      simp at hempty
    · intro pmt hpmt
      injection hpmt with hpmt
      rw [← hpmt]
      constructor
      · exact build_proof_loop_flags txid_watches block.txdata outpoint_watches
      · exact build_proof_loop_txids txid_watches block.txdata outpoint_watches

/-- Transaction watched by txid in the C8 witness block. -/
def testTx1 : Transaction :=
  ⟨1, [⟨⟨50, 0⟩⟩], [⟨10⟩]⟩

/-- Unrelated transaction in the C8 witness block. -/
def testTx2 : Transaction :=
  ⟨2, [⟨⟨60, 0⟩⟩], [⟨11⟩]⟩

/-- Transaction spending an output of `testTx1` in the C8 witness block. -/
def testTx3 : Transaction :=
  ⟨3, [⟨⟨1, 0⟩⟩], [⟨12⟩]⟩

/-- C8 witness block: watching txid 1 must match `testTx1` and, through its
output, `testTx3`. -/
def testBlock : Block :=
  ⟨[testTx1, testTx2, testTx3]⟩

/-- Block with no matching transaction for the C8 witness. -/
def testBlockNone : Block :=
  ⟨[testTx2]⟩

/-- Witness for C8 at concrete inputs: watching txid 1 matches transactions 1
and 3 (3 spends an output of 1), the proof flags exactly those two, and a
block with no matches yields no proof. -/
theorem C8_build_proof_witness :
    (build_proof testBlock [1] []).2 =
      some ⟨[1, 2, 3], [true, false, true]⟩ ∧
    PartialMerkleTree.matched_txids ⟨[1, 2, 3], [true, false, true]⟩ =
      (build_proof testBlock [1] []).1.map Transaction.txid ∧
    (build_proof testBlockNone [1] []).2 = none := by
  refine ⟨by decide, ?_, ?_⟩
  · exact ((C8_build_proof testBlock [1] []).2.2
      ⟨[1, 2, 3], [true, false, true]⟩ (by decide)).1
  · exact (C8_build_proof testBlockNone [1] []).2.1 (by decide)
